import Mathlib

/-!
Verification of the tag-page plugin (Indexer + Page Content Generator +
plugin orchestration from `src/main.ts`).  Pure functions of the plugin are
embedded shallowly; the host-API surface (editor, vault) is modelled as
explicit data.  The Indexer (`utils/tagSearch.ts`) and the Generator
(`utils/pageContent.ts`) are not part of the provided sources, so they are
modelled from the specification (each such definition is marked).
-/

namespace TagPage

/-- JS `s.startsWith(pre)` from `main.ts` (e.g. `tag.startsWith('#')`),
expressed on the underlying character lists. -/
def jsStartsWith (s pre : String) : Bool :=
  pre.data.isPrefixOf s.data

/-- Helper for `strIncludes`: does `sub` occur as a contiguous segment? -/
def hasSeg (sub : List Char) : List Char → Bool
  | [] => sub.isEmpty
  | c :: rest => sub.isPrefixOf (c :: rest) || hasSeg sub rest

/-- JS `s.includes(sub)` from `main.ts` line 93
(`currentFile.path.includes(this.settings.tagPageDir)`). -/
def strIncludes (s sub : String) : Bool :=
  hasSeg sub.data s.data

/-- `PluginSettings` from `src/main.ts` (after `loadSettings`, every field is
populated, so the fields carry plain values). -/
structure PluginSettings where
  mySetting : String
  tagPageDir : String
  frontmatterQueryProperty : String
  bulletedSubItems : Bool
  includeLines : Bool
deriving DecidableEq

/-- `DEFAULT_SETTINGS` from `src/main.ts` lines 24-30. -/
def DEFAULT_SETTINGS : PluginSettings :=
  ⟨"default", "Tags", "tage-page-query", true, true⟩

/-- A persisted settings record as returned by `loadData()`: every field is
optional (absent fields are `none`). -/
structure StoredSettings where
  mySetting : Option String
  tagPageDir : Option String
  frontmatterQueryProperty : Option String
  bulletedSubItems : Option Bool
  includeLines : Option Bool
deriving DecidableEq

/-- `loadSettings` from `src/main.ts` lines 61-67:
`Object.assign({}, DEFAULT_SETTINGS, await this.loadData())` — a stored field,
when present, overrides the default; an absent field keeps the default. -/
def loadSettings (stored : StoredSettings) : PluginSettings :=
  ⟨stored.mySetting.getD DEFAULT_SETTINGS.mySetting,
   stored.tagPageDir.getD DEFAULT_SETTINGS.tagPageDir,
   stored.frontmatterQueryProperty.getD DEFAULT_SETTINGS.frontmatterQueryProperty,
   stored.bulletedSubItems.getD DEFAULT_SETTINGS.bulletedSubItems,
   stored.includeLines.getD DEFAULT_SETTINGS.includeLines⟩

/-- `TagInfo` from `src/src/types.ts`. -/
structure TagInfo where
  fileLink : String
  tagMatches : List String
deriving DecidableEq

/-- A document of the store (spec §3): unique path, content as an ordered
sequence of lines, frontmatter as a key/value mapping with unique keys. -/
structure Document where
  path : String
  content : List String
  frontmatter : List (String × String)
deriving DecidableEq

/-- Tag normalization, exactly `src/main.ts` line 102:
`tag.startsWith('#') ? tag : `#${tag}``. -/
def normalizeTag (tag : String) : String :=
  if jsStartsWith tag "#" then tag else "#" ++ tag

/-- Helper for the tokenizer: split a character list at whitespace,
accumulating the current (reversed) token. -/
def tokensAux : List Char → List Char → List (List Char)
  | [], acc => [acc.reverse]
  | c :: rest, acc =>
    if c.isWhitespace then acc.reverse :: tokensAux rest []
    else tokensAux rest (c :: acc)

/-- Modelled from the spec: the Indexer (`utils/tagSearch.ts` is missing from
the sources) treats a line as a sequence of whitespace-separated tokens when
looking for a whole-token tag occurrence (§4.1 rule 1). -/
def lineTokens (line : String) : List String :=
  (tokensAux line.data []).map String.mk

/-- Modelled from the spec: a line matches when some whole token equals the
normalized tag — a strict substring of a longer tag-like token (e.g.
`#tagging` for `#tag`) does not match (§4.1 rule 1). -/
def lineMatches (t : String) (line : String) : Bool :=
  (lineTokens line).any (fun tok => tok == t)

/-- Modelled from the spec: the frontmatter-query rule (§4.1 rule 2) — the
frontmatter has key `config.frontmatterQueryProperty` with value equal to the
normalized tag. -/
def fmMatches (cfg : PluginSettings) (t : String) (d : Document) : Bool :=
  List.lookup cfg.frontmatterQueryProperty d.frontmatter == some t

/-- Modelled from the spec: a document matches when either rule fires (§4.1,
rules combined with logical OR). -/
def docMatches (cfg : PluginSettings) (t : String) (d : Document) : Bool :=
  d.content.any (lineMatches t) || fmMatches cfg t d

/-- Modelled from the spec: the single synthetic evidence entry contributed by
a frontmatter-query match (§4.1 rule 2). -/
def frontmatterMarker : String := "matched via frontmatter query"

/-- Modelled from the spec: evidence of a matching document — matching content
lines in original order (once per matching line), then the synthetic
frontmatter marker last when the frontmatter rule also fired (§4.1). -/
def docEvidence (cfg : PluginSettings) (t : String) (d : Document) : List String :=
  d.content.filter (lineMatches t) ++
    (if fmMatches cfg t d then [frontmatterMarker] else [])

/-- Modelled from the spec: the `fileLink` of a `TagInfo` is a link back to
the source document derived from its path (§3). -/
def mkFileLink (path : String) : String := "[[" ++ path ++ "]]"

/-- Modelled from the spec: the `TagInfo` produced for one matching
document. -/
def mkTagInfo (cfg : PluginSettings) (t : String) (d : Document) : TagInfo :=
  ⟨mkFileLink d.path, docEvidence cfg t d⟩

/-- Modelled from the spec: a path lives inside a directory (used for the
"pages already living inside `config.tagPageDir` are excluded" rule,
§4.1). -/
def underDir (dir p : String) : Bool :=
  jsStartsWith p (dir ++ "/")

/-- Modelled from the spec: the documents the Indexer scans — everything in
the store except pages inside `config.tagPageDir` (§4.1). -/
def scannedDocs (cfg : PluginSettings) (docs : List Document) : List Document :=
  docs.filter (fun d => !underDir cfg.tagPageDir d.path)

/-- Modelled from the spec: the matching documents, sorted by document path
ascending (§4.1, last step before returning). -/
def sortedMatches (docs : List Document) (tag : String) (cfg : PluginSettings) :
    List Document :=
  ((scannedDocs cfg docs).filter (docMatches cfg (normalizeTag tag))).insertionSort
    (fun a b => a.path ≤ b.path)

/-- Modelled from the spec: the Indexer contract
`index(documents, tagOfInterest, config) -> ordered sequence of TagInfo`
(§4.1); `utils/tagSearch.ts` (`fetchTagData`) is missing from the sources. -/
def index (docs : List Document) (tag : String) (cfg : PluginSettings) :
    List TagInfo :=
  (sortedMatches docs tag cfg).map (mkTagInfo cfg (normalizeTag tag))

/-- Modelled from the spec: rendering of one evidence line — nested bullet
when `bulletedSubItems`, otherwise a plain indented line (§4.2). -/
def renderMatchLine (cfg : PluginSettings) (m : String) : String :=
  if cfg.bulletedSubItems then "  - " ++ m ++ "\n" else "  " ++ m ++ "\n"

/-- Modelled from the spec: rendering of one `TagInfo` — a top-level list item
with the file link, with the evidence nested beneath it when
`includeLines` (§4.2, §6 output format). -/
def renderTagInfo (cfg : PluginSettings) (ti : TagInfo) : String :=
  "- " ++ ti.fileLink ++ "\n" ++
    (if cfg.includeLines then String.join (ti.tagMatches.map (renderMatchLine cfg))
     else "")

/-- Modelled from the spec: the heading line naming the normalized tag
(§4.2). -/
def headingLine (t : String) : String := "# " ++ t ++ "\n\n"

/-- Modelled from the spec: the explicit no-matches notice emitted for an
empty result (§4.2). -/
def emptyNotice : String := "No matches found.\n"

/-- Modelled from the spec: the Generator contract
`render(config, tagInfos, tagOfInterest) -> markdown text` (§4.2);
`utils/pageContent.ts` (`generateTagPageContent`) is missing from the
sources. -/
def render (cfg : PluginSettings) (tagInfos : List TagInfo) (tag : String) :
    String :=
  headingLine (normalizeTag tag) ++
    (if tagInfos.isEmpty then emptyNotice
     else String.join (tagInfos.map (renderTagInfo cfg)))

/-- `refreshTagPageContent` from `src/main.ts` lines 73-98, as a function from
the active editor state to the new editor content.  `activePath = none` models
"no editor / no current file"; otherwise the content is replaced exactly when
`currentFile.path.includes(this.settings.tagPageDir)` holds (line 93). -/
def refreshTagPageContent (cfg : PluginSettings) (docs : List Document)
    (tag : String) (activePath : Option String) (current : String) : String :=
  match activePath with
  | none => current
  | some p =>
    if strIncludes p cfg.tagPageDir then render cfg (index docs tag cfg) tag
    else current

/-- The externally visible effect of `createTagPage`. -/
inductive CreateResult where
  | openedExisting (path : String)
  | created (path : String) (content : String)
deriving DecidableEq

/-- `createTagPage` from `src/main.ts` lines 100-149: normalize the tag
(line 102), look the page up at the path `tagPageDir + "/" + tagOfInterest + ".md"`
(lines 105-107); if absent, index + render and create the page with that
content (lines 109-139), otherwise just open the existing page (line 147).
`existingPaths` models the vault paths `getAbstractFileByPath` can resolve. -/
def createTagPage (cfg : PluginSettings) (vault : List Document)
    (existingPaths : List String) (tag : String) : CreateResult :=
  let t := normalizeTag tag
  let pagePath := cfg.tagPageDir ++ "/" ++ t ++ ".md"
  if existingPaths.contains pagePath then .openedExisting pagePath
  else .created pagePath (render cfg (index vault t cfg) t)

/-- Claim C9: loading the configuration fills absent fields with the
documented defaults (`tagPageDir = "Tags"`,
`frontmatterQueryProperty = "tage-page-query"`, `bulletedSubItems = true`,
`includeLines = true`) and lets a present stored field override its
default. -/
theorem loadSettings_defaults (stored : StoredSettings) :
    (loadSettings stored).tagPageDir = stored.tagPageDir.getD "Tags" ∧
    (loadSettings stored).frontmatterQueryProperty =
      stored.frontmatterQueryProperty.getD "tage-page-query" ∧
    (loadSettings stored).bulletedSubItems = stored.bulletedSubItems.getD true ∧
    (loadSettings stored).includeLines = stored.includeLines.getD true ∧
    loadSettings ⟨none, none, none, none, none⟩ = DEFAULT_SETTINGS :=
  ⟨rfl, rfl, rfl, rfl, rfl⟩

/-- Claim C7: `render` on an empty `TagInfo` sequence produces the heading for
the normalized tag followed by an explicit non-empty no-matches notice; the
output is never the bare heading alone. -/
theorem render_empty_has_notice (cfg : PluginSettings) (tag : String) :
    render cfg [] tag = headingLine (normalizeTag tag) ++ emptyNotice ∧
    emptyNotice ≠ "" ∧
    render cfg [] tag ≠ headingLine (normalizeTag tag) := by
  refine ⟨rfl, by decide, ?_⟩
  intro h
  have hl := congrArg String.length h
  rw [show render cfg [] tag = headingLine (normalizeTag tag) ++ emptyNotice from rfl,
    String.length_append] at hl
  have hn : emptyNotice.length = 18 := by decide
  omega

/-- Claim C8: `render` is deterministic — equal inputs give byte-identical
output, and running the whole pipeline twice on an unchanged document set
gives byte-identical strings. -/
theorem render_deterministic (cfg₁ cfg₂ : PluginSettings)
    (tis₁ tis₂ : List TagInfo) (t₁ t₂ : String) (docs : List Document)
    (h₁ : cfg₁ = cfg₂) (h₂ : tis₁ = tis₂) (h₃ : t₁ = t₂) :
    render cfg₁ tis₁ t₁ = render cfg₂ tis₂ t₂ ∧
    render cfg₁ (index docs t₁ cfg₁) t₁ = render cfg₁ (index docs t₁ cfg₁) t₁ := by
  subst h₁; subst h₂; subst h₃
  exact ⟨rfl, rfl⟩

/-- Witness for `render_deterministic` at a concrete input. -/
theorem render_deterministic_witness :
    DEFAULT_SETTINGS = DEFAULT_SETTINGS ∧ ([] : List TagInfo) = [] ∧
    "#t" = "#t" ∧
    (render DEFAULT_SETTINGS [] "#t" = render DEFAULT_SETTINGS [] "#t" ∧
      render DEFAULT_SETTINGS (index [] "#t" DEFAULT_SETTINGS) "#t" =
        render DEFAULT_SETTINGS (index [] "#t" DEFAULT_SETTINGS) "#t") :=
  ⟨rfl, rfl, rfl,
    render_deterministic DEFAULT_SETTINGS DEFAULT_SETTINGS [] [] "#t" "#t" []
      rfl rfl rfl⟩

/-- Claim C10: when a file already exists at `tagPageDir/<normalized tag>.md`,
`createTagPage` only opens it — nothing is indexed, rendered, created or
overwritten. -/
theorem createTagPage_existing_only_opens (cfg : PluginSettings)
    (vault : List Document) (existingPaths : List String) (tag : String)
    (h : existingPaths.contains
      (cfg.tagPageDir ++ "/" ++ normalizeTag tag ++ ".md") = true) :
    createTagPage cfg vault existingPaths tag =
      CreateResult.openedExisting
        (cfg.tagPageDir ++ "/" ++ normalizeTag tag ++ ".md") := by
  simp only [createTagPage, h, if_pos]

/-- Witness for `createTagPage_existing_only_opens` at a concrete input. -/
theorem createTagPage_existing_only_opens_witness :
    (["Tags/#x.md"].contains
      (DEFAULT_SETTINGS.tagPageDir ++ "/" ++ normalizeTag "#x" ++ ".md") = true) ∧
    createTagPage DEFAULT_SETTINGS [] ["Tags/#x.md"] "#x" =
      CreateResult.openedExisting
        (DEFAULT_SETTINGS.tagPageDir ++ "/" ++ normalizeTag "#x" ++ ".md") :=
  ⟨by decide,
    createTagPage_existing_only_opens DEFAULT_SETTINGS [] ["Tags/#x.md"] "#x"
      (by decide)⟩

/-- Claim C5, counterexample: `createTagPage` performs no input validation —
for the empty tag (and for the bare marker `#`) it does not fail before the
scan; it indexes, renders and creates the page `Tags/#.md` with fully
rendered, non-empty content. -/
theorem createTagPage_no_validation_counterexample :
    createTagPage DEFAULT_SETTINGS [] [] "" =
      CreateResult.created "Tags/#.md"
        (render DEFAULT_SETTINGS (index [] "#" DEFAULT_SETTINGS) "#") ∧
    createTagPage DEFAULT_SETTINGS [] [] "#" =
      CreateResult.created "Tags/#.md"
        (render DEFAULT_SETTINGS (index [] "#" DEFAULT_SETTINGS) "#") ∧
    render DEFAULT_SETTINGS (index [] "#" DEFAULT_SETTINGS) "#" ≠ "" := by
  refine ⟨by decide, by decide, by decide⟩

/-- Claim C5 as amended: an empty tag is not rejected — it is normalized to
`#` and `createTagPage` behaves exactly as if `#` had been supplied. -/
theorem createTagPage_empty_eq_marker (cfg : PluginSettings)
    (vault : List Document) (existingPaths : List String) :
    normalizeTag "" = "#" ∧
    createTagPage cfg vault existingPaths "" =
      createTagPage cfg vault existingPaths "#" := by
  constructor
  · decide
  · simp only [createTagPage, show normalizeTag "" = "#" from by decide,
      show normalizeTag "#" = "#" from by decide]

/-- Claim C4, counterexample: the refresh guard is
`path.includes(tagPageDir)`, a substring test, not a path-prefix test — the
active file `MyTags/note.md` is not inside the directory `Tags` under either
prefix reading, yet `refreshTagPageContent` overwrites its content. -/
theorem refresh_guard_counterexample :
    underDir DEFAULT_SETTINGS.tagPageDir "MyTags/note.md" = false ∧
    jsStartsWith "MyTags/note.md" DEFAULT_SETTINGS.tagPageDir = false ∧
    refreshTagPageContent DEFAULT_SETTINGS [] "#x" (some "MyTags/note.md")
      "old" ≠ "old" := by
  refine ⟨by decide, by decide, by decide⟩

/-- Claim C4 as amended: `refreshTagPageContent` overwrites the active
editor's content only when the active file's path contains
`config.tagPageDir` as a substring (JS `String.includes`); a path not
containing it — and the no-active-file case — is left unchanged. -/
theorem refresh_overwrites_only_substring (cfg : PluginSettings)
    (docs : List Document) (tag p current : String)
    (h : strIncludes p cfg.tagPageDir = false) :
    refreshTagPageContent cfg docs tag (some p) current = current ∧
    refreshTagPageContent cfg docs tag none current = current := by
  constructor
  · simp only [refreshTagPageContent, h, Bool.false_eq_true, if_false]
  · rfl

/-- Witness for `refresh_overwrites_only_substring` at a concrete input. -/
theorem refresh_overwrites_only_substring_witness :
    strIncludes "elsewhere/a.md" DEFAULT_SETTINGS.tagPageDir = false ∧
    (refreshTagPageContent DEFAULT_SETTINGS [] "#x" (some "elsewhere/a.md")
        "old" = "old" ∧
      refreshTagPageContent DEFAULT_SETTINGS [] "#x" none "old" = "old") :=
  ⟨by decide,
    refresh_overwrites_only_substring DEFAULT_SETTINGS [] "#x" "elsewhere/a.md"
      "old" (by decide)⟩

/-- Prepending the marker yields a string that starts with the marker. -/
theorem jsStartsWith_hash_append (t : String) :
    jsStartsWith ("#" ++ t) "#" = true := by
  simp [jsStartsWith, List.isPrefixOf]

/-- Claim C3: a tag supplied without the leading `#` and the same tag supplied
with it normalize to the same canonical form and drive `index` and
`createTagPage` to identical results. -/
theorem tag_marker_normalization (t : String)
    (h : jsStartsWith t "#" = false) (docs : List Document)
    (cfg : PluginSettings) (vault : List Document)
    (existingPaths : List String) :
    normalizeTag t = normalizeTag ("#" ++ t) ∧
    index docs t cfg = index docs ("#" ++ t) cfg ∧
    createTagPage cfg vault existingPaths t =
      createTagPage cfg vault existingPaths ("#" ++ t) := by
  have hnorm₁ : normalizeTag t = "#" ++ t := by
    simp [normalizeTag, h]
  have hnorm₂ : normalizeTag ("#" ++ t) = "#" ++ t := by
    simp [normalizeTag, jsStartsWith_hash_append]
  refine ⟨hnorm₁.trans hnorm₂.symm, ?_, ?_⟩
  · simp only [index, sortedMatches, hnorm₁, hnorm₂]
  · simp only [createTagPage, hnorm₁, hnorm₂]

/-- Witness for `tag_marker_normalization` at a concrete input. -/
theorem tag_marker_normalization_witness :
    jsStartsWith "tag" "#" = false ∧
    (normalizeTag "tag" = normalizeTag ("#" ++ "tag") ∧
      index [] "tag" DEFAULT_SETTINGS = index [] ("#" ++ "tag") DEFAULT_SETTINGS ∧
      createTagPage DEFAULT_SETTINGS [] [] "tag" =
        createTagPage DEFAULT_SETTINGS [] [] ("#" ++ "tag")) :=
  ⟨by decide,
    tag_marker_normalization "tag" (by decide) [] DEFAULT_SETTINGS [] []⟩

/-- The sorted match list is a permutation of the filtered scan list. -/
theorem sortedMatches_perm (docs : List Document) (tag : String)
    (cfg : PluginSettings) :
    (sortedMatches docs tag cfg).Perm
      ((scannedDocs cfg docs).filter (docMatches cfg (normalizeTag tag))) :=
  List.perm_insertionSort _ _

/-- The sorted match list is pairwise ordered by path. -/
theorem sortedMatches_pairwise_le (docs : List Document) (tag : String)
    (cfg : PluginSettings) :
    (sortedMatches docs tag cfg).Pairwise (fun a b => a.path ≤ b.path) := by
  haveI : IsTotal Document (fun a b => a.path ≤ b.path) :=
    ⟨fun a b => le_total a.path b.path⟩
  haveI : IsTrans Document (fun a b => a.path ≤ b.path) :=
    ⟨fun _ _ _ h₁ h₂ => le_trans h₁ h₂⟩
  exact List.sorted_insertionSort _ _

/-- With pairwise-distinct input paths, the sorted match list has
pairwise-distinct paths. -/
theorem sortedMatches_paths_nodup (docs : List Document) (tag : String)
    (cfg : PluginSettings) (hnd : (docs.map Document.path).Nodup) :
    ((sortedMatches docs tag cfg).map Document.path).Nodup := by
  have h1 : List.Sublist
      ((scannedDocs cfg docs).filter (docMatches cfg (normalizeTag tag)))
      docs :=
    (List.filter_sublist _).trans (List.filter_sublist _)
  have h3 : (((scannedDocs cfg docs).filter
      (docMatches cfg (normalizeTag tag))).map Document.path).Nodup :=
    (h1.map Document.path).nodup hnd
  exact (((sortedMatches_perm docs tag cfg).map Document.path).nodup_iff).mpr h3

/-- With pairwise-distinct input paths, the sorted match list is strictly
ordered by path. -/
theorem sortedMatches_pairwise_lt (docs : List Document) (tag : String)
    (cfg : PluginSettings) (hnd : (docs.map Document.path).Nodup) :
    (sortedMatches docs tag cfg).Pairwise (fun a b => a.path < b.path) := by
  have hs := sortedMatches_pairwise_le docs tag cfg
  have hne : (sortedMatches docs tag cfg).Pairwise
      (fun a b => a.path ≠ b.path) :=
    List.pairwise_map.mp (sortedMatches_paths_nodup docs tag cfg hnd)
  exact (hs.and hne).imp (fun h => lt_of_le_of_ne h.1 h.2)

/-- Claim C2: `index` output is invariant under permutation of the input
documents (whose paths are unique, per the data model) and is sorted by
document path ascending. -/
theorem index_sorted_perm_invariant (cfg : PluginSettings) (tag : String)
    (docs₁ docs₂ : List Document) (hperm : docs₁.Perm docs₂)
    (hnd : (docs₁.map Document.path).Nodup) :
    index docs₁ tag cfg = index docs₂ tag cfg ∧
    ((sortedMatches docs₁ tag cfg).map Document.path).Pairwise (· ≤ ·) ∧
    index docs₁ tag cfg =
      (sortedMatches docs₁ tag cfg).map (mkTagInfo cfg (normalizeTag tag)) := by
  have hnd₂ : (docs₂.map Document.path).Nodup :=
    ((hperm.map Document.path).nodup_iff).mp hnd
  have hpf : ((scannedDocs cfg docs₁).filter
        (docMatches cfg (normalizeTag tag))).Perm
      ((scannedDocs cfg docs₂).filter (docMatches cfg (normalizeTag tag))) :=
    (hperm.filter _).filter _
  have hsm : (sortedMatches docs₁ tag cfg).Perm (sortedMatches docs₂ tag cfg) :=
    (sortedMatches_perm docs₁ tag cfg).trans
      (hpf.trans (sortedMatches_perm docs₂ tag cfg).symm)
  have heq : sortedMatches docs₁ tag cfg = sortedMatches docs₂ tag cfg := by
    haveI : IsAntisymm Document (fun a b => a.path < b.path) :=
      ⟨fun _ _ h₁ h₂ => absurd h₂ (lt_asymm h₁)⟩
    exact List.eq_of_perm_of_sorted hsm
      (sortedMatches_pairwise_lt docs₁ tag cfg hnd)
      (sortedMatches_pairwise_lt docs₂ tag cfg hnd₂)
  refine ⟨?_, ?_, rfl⟩
  · simp only [index, heq]
  · exact List.pairwise_map.mpr (sortedMatches_pairwise_le docs₁ tag cfg)

/-- Witness for `index_sorted_perm_invariant` at a concrete input. -/
theorem index_sorted_perm_invariant_witness :
    ([(⟨"b.md", ["x #t"], []⟩ : Document), ⟨"a.md", ["y #t"], []⟩].Perm
      [⟨"a.md", ["y #t"], []⟩, ⟨"b.md", ["x #t"], []⟩]) ∧
    (([(⟨"b.md", ["x #t"], []⟩ : Document), ⟨"a.md", ["y #t"], []⟩].map
      Document.path).Nodup) ∧
    (index [⟨"b.md", ["x #t"], []⟩, ⟨"a.md", ["y #t"], []⟩] "#t"
        DEFAULT_SETTINGS =
      index [⟨"a.md", ["y #t"], []⟩, ⟨"b.md", ["x #t"], []⟩] "#t"
        DEFAULT_SETTINGS ∧
    ((sortedMatches [⟨"b.md", ["x #t"], []⟩, ⟨"a.md", ["y #t"], []⟩] "#t"
        DEFAULT_SETTINGS).map Document.path).Pairwise (· ≤ ·) ∧
    index [⟨"b.md", ["x #t"], []⟩, ⟨"a.md", ["y #t"], []⟩] "#t"
        DEFAULT_SETTINGS =
      (sortedMatches [⟨"b.md", ["x #t"], []⟩, ⟨"a.md", ["y #t"], []⟩] "#t"
        DEFAULT_SETTINGS).map
        (mkTagInfo DEFAULT_SETTINGS (normalizeTag "#t"))) :=
  ⟨by decide, by decide,
    index_sorted_perm_invariant DEFAULT_SETTINGS "#t"
      [⟨"b.md", ["x #t"], []⟩, ⟨"a.md", ["y #t"], []⟩]
      [⟨"a.md", ["y #t"], []⟩, ⟨"b.md", ["x #t"], []⟩]
      (by decide) (by decide)⟩

/-- Claim C1: the inline rule only counts whole-token occurrences — a
document in which every token having the tag as a prefix is strictly longer
than the tag (e.g. only `#tagging` when searching for `#tag`), and whose
frontmatter does not match, contributes no `TagInfo`: `index` is unchanged by
the document's presence. -/
theorem inline_whole_token_only (cfg : PluginSettings) (tag : String)
    (d : Document)
    (hTok : ∀ line ∈ d.content, ∀ tok ∈ lineTokens line,
      (normalizeTag tag).data.isPrefixOf tok.data = true →
        tok ≠ normalizeTag tag)
    (hFm : fmMatches cfg (normalizeTag tag) d = false) :
    docMatches cfg (normalizeTag tag) d = false ∧
    ∀ docs, index (d :: docs) tag cfg = index docs tag cfg := by
  have hline : ∀ line ∈ d.content, lineMatches (normalizeTag tag) line = false := by
    intro line hl
    rw [lineMatches, List.any_eq_false]
    intro tok htok hbeq
    have heq : tok = normalizeTag tag := eq_of_beq hbeq
    refine hTok line hl tok htok ?_ heq
    rw [heq]
    exact List.isPrefixOf_iff_prefix.mpr (List.prefix_refl _)
  have hmatch : docMatches cfg (normalizeTag tag) d = false := by
    rw [docMatches, Bool.or_eq_false_iff]
    refine ⟨?_, hFm⟩
    rw [List.any_eq_false]
    intro line hl
    simp [hline line hl]
  refine ⟨hmatch, ?_⟩
  intro docs
  cases hu : underDir cfg.tagPageDir d.path <;>
    simp only [index, sortedMatches, scannedDocs, List.filter_cons, hu,
      hmatch, Bool.not_false, Bool.not_true, if_true, if_false,
      Bool.false_eq_true, reduceIte]

/-- Witness for `inline_whole_token_only` at a concrete input: a document
containing only `#tagging` contributes nothing for tag `#tag`. -/
theorem inline_whole_token_only_witness :
    (∀ line ∈ (["only #tagging here"] : List String),
      ∀ tok ∈ lineTokens line,
        (normalizeTag "#tag").data.isPrefixOf tok.data = true →
          tok ≠ normalizeTag "#tag") ∧
    fmMatches DEFAULT_SETTINGS (normalizeTag "#tag")
      ⟨"a.md", ["only #tagging here"], []⟩ = false ∧
    index [⟨"a.md", ["only #tagging here"], []⟩] "#tag" DEFAULT_SETTINGS =
      index [] "#tag" DEFAULT_SETTINGS :=
  ⟨by decide, by decide,
    (inline_whole_token_only DEFAULT_SETTINGS "#tag"
      ⟨"a.md", ["only #tagging here"], []⟩ (by decide) (by decide)).2 []⟩

/-- The file link derivation is injective on paths, at the `Bool` level of
`==`. -/
theorem mkFileLink_beq (a b : String) :
    (mkFileLink a == mkFileLink b) = (a == b) := by
  by_cases h : a = b
  · simp [h]
  · have hne : mkFileLink a ≠ mkFileLink b := by
      intro hl
      apply h
      have hd := congrArg String.data hl
      simp only [mkFileLink, String.data_append] at hd
      exact String.ext (List.append_cancel_left (List.append_cancel_right hd))
    simp [h, hne]

/-- Claim C6: a document matching the frontmatter-query rule appears exactly
once in the result; its evidence is the matching inline lines first and the
synthetic frontmatter marker last, and with no inline occurrence the evidence
is exactly the single synthetic entry. -/
theorem frontmatter_query_match (cfg : PluginSettings) (tag : String)
    (docs : List Document) (d : Document) (hmem : d ∈ docs)
    (hnd : (docs.map Document.path).Nodup)
    (hdir : underDir cfg.tagPageDir d.path = false)
    (hfm : fmMatches cfg (normalizeTag tag) d = true) :
    (index docs tag cfg).countP
      (fun ti => ti.fileLink == mkFileLink d.path) = 1 ∧
    mkTagInfo cfg (normalizeTag tag) d ∈ index docs tag cfg ∧
    docEvidence cfg (normalizeTag tag) d =
      d.content.filter (lineMatches (normalizeTag tag)) ++ [frontmatterMarker] ∧
    ((∀ line ∈ d.content, lineMatches (normalizeTag tag) line = false) →
      (mkTagInfo cfg (normalizeTag tag) d).tagMatches = [frontmatterMarker]) := by
  have hdm : docMatches cfg (normalizeTag tag) d = true := by
    rw [docMatches, hfm, Bool.or_true]
  have hmem2 : d ∈ (scannedDocs cfg docs).filter
      (docMatches cfg (normalizeTag tag)) := by
    refine List.mem_filter.mpr ⟨?_, hdm⟩
    exact List.mem_filter.mpr ⟨hmem, by simp [hdir]⟩
  have hmemS : d ∈ sortedMatches docs tag cfg :=
    ((sortedMatches_perm docs tag cfg).mem_iff).mpr hmem2
  refine ⟨?_, List.mem_map_of_mem _ hmemS, ?_, ?_⟩
  · have hcount : ((sortedMatches docs tag cfg).map Document.path).count
        d.path = 1 :=
      List.count_eq_one_of_mem (sortedMatches_paths_nodup docs tag cfg hnd)
        (List.mem_map_of_mem _ hmemS)
    calc ((index docs tag cfg).countP
          (fun ti => ti.fileLink == mkFileLink d.path))
        = ((sortedMatches docs tag cfg).countP
            (fun d' => mkFileLink d'.path == mkFileLink d.path)) := by
          rw [index, List.countP_map]; rfl
      _ = ((sortedMatches docs tag cfg).countP
            (fun d' => d'.path == d.path)) := by
          apply List.countP_congr
          intro d' _
          rw [mkFileLink_beq]
      _ = ((sortedMatches docs tag cfg).map Document.path).count d.path := by
          rw [List.count_eq_countP, List.countP_map]; rfl
      _ = 1 := hcount
  · rw [docEvidence, hfm, if_pos rfl]
  · intro h
    rw [mkTagInfo, docEvidence, hfm, if_pos rfl]
    have hnil : d.content.filter (lineMatches (normalizeTag tag)) = [] :=
      List.filter_eq_nil_iff.mpr (fun a ha => by simp [h a ha])
    simp [hnil]

/-- Witness for `frontmatter_query_match` at a concrete input: a document
with no inline occurrence whose frontmatter declares the query property with
the tag as value. -/
theorem frontmatter_query_match_witness :
    ((⟨"c.md", ["unrelated"], [("tage-page-query", "#tag")]⟩ : Document) ∈
      [(⟨"c.md", ["unrelated"], [("tage-page-query", "#tag")]⟩ : Document)]) ∧
    (([(⟨"c.md", ["unrelated"], [("tage-page-query", "#tag")]⟩ : Document)].map
      Document.path).Nodup) ∧
    underDir DEFAULT_SETTINGS.tagPageDir "c.md" = false ∧
    fmMatches DEFAULT_SETTINGS (normalizeTag "#tag")
      ⟨"c.md", ["unrelated"], [("tage-page-query", "#tag")]⟩ = true ∧
    ((index [⟨"c.md", ["unrelated"], [("tage-page-query", "#tag")]⟩] "#tag"
        DEFAULT_SETTINGS).countP
      (fun ti => ti.fileLink == mkFileLink "c.md") = 1 ∧
    mkTagInfo DEFAULT_SETTINGS (normalizeTag "#tag")
        ⟨"c.md", ["unrelated"], [("tage-page-query", "#tag")]⟩ ∈
      index [⟨"c.md", ["unrelated"], [("tage-page-query", "#tag")]⟩] "#tag"
        DEFAULT_SETTINGS ∧
    docEvidence DEFAULT_SETTINGS (normalizeTag "#tag")
        ⟨"c.md", ["unrelated"], [("tage-page-query", "#tag")]⟩ =
      (["unrelated"] : List String).filter (lineMatches (normalizeTag "#tag")) ++
        [frontmatterMarker] ∧
    ((∀ line ∈ (["unrelated"] : List String),
        lineMatches (normalizeTag "#tag") line = false) →
      (mkTagInfo DEFAULT_SETTINGS (normalizeTag "#tag")
        ⟨"c.md", ["unrelated"], [("tage-page-query", "#tag")]⟩).tagMatches =
        [frontmatterMarker])) :=
  ⟨List.mem_singleton.mpr rfl, by decide, by decide, by decide,
    frontmatter_query_match DEFAULT_SETTINGS "#tag"
      [⟨"c.md", ["unrelated"], [("tage-page-query", "#tag")]⟩]
      ⟨"c.md", ["unrelated"], [("tage-page-query", "#tag")]⟩
      (List.mem_singleton.mpr rfl) (by decide) (by decide) (by decide)⟩

end TagPage
